import Mathlib

/-!
Verification development for the Speaker Selection Engine of
`autogen_agentchat.teams._group_chat._selector_group_chat`
(`SelectorGroupChatManager.select_speaker`, `_mentioned_agents`,
`SelectorGroupChat.__init__`).

The Python code is shallowly embedded: messages and events become inductive
types, the selection round becomes a pure state-passing function returning
the round's result together with the post-round `_previous_speaker` value,
and the completion client becomes a function argument, so that "the model is
never invoked" is expressible as independence from that argument.
-/

namespace SelectorChat

/-- Items of `MultiModalMessage.content`: either a string or an opaque media
item (`Image` in the source). -/
inductive MultiModalItem where
  | str (s : String)
  | media
deriving DecidableEq

/-- The message variants `select_speaker` distinguishes: `TextMessage`,
`StopMessage`, `MultiModalMessage`, and any other `ChatMessage` subtype
(which the renderer rejects with `ValueError`). -/
inductive ChatMessage where
  | textMessage (content : String)
  | stopMessage (content : String)
  | multiModalMessage (content : List MultiModalItem)
  | other
deriving DecidableEq

/-- A `GroupChatPublishEvent`: the domain message plus the publishing agent
(`source`, whose `.type` string is used as the agent name; `None` for
externally injected messages). -/
structure GroupChatPublishEvent where
  agent_message : ChatMessage
  source : Option String
deriving DecidableEq

/-- Errors a selection round can raise. The Python code raises `ValueError`
(for the unsupported message variant and the mention-ambiguity check),
`AssertionError` (empty candidate list), propagates the model client's
failure, and `zip(..., strict=True)` raises on mismatched role lists; we
keep them apart. -/
inductive SelectorError where
  | unsupportedMessageType
  | roleZipMismatch
  | emptyCandidateSet
  | ambiguousSelection (mentions : List (String × Nat))
  | modelInvocationFailure
deriving DecidableEq

/-! ### Mention matcher (`_mentioned_agents`)

The Python code builds, per candidate name, the regex
`(?<=\W)(escape(name)|escape(name.replace("_", " "))|escape(name.replace("_", "\_")))(?=\W)`
and counts `re.findall` matches in the space-padded message.  We embed the
relevant fragment of the regex engine directly: a left-to-right,
non-overlapping scan that at each position checks the one-character
lookbehind, tries the three literal alternatives in order, and accepts the
first whose lookahead (one non-word character) holds.  Word characters are
modelled as the ASCII fragment `[A-Za-z0-9_]` of Python's `\w` (all inputs
in this development are ASCII). -/

/-- ASCII fragment of Python's regex `\w`. -/
def isWordChar (c : Char) : Bool :=
  c.isAlphanum || c = '_'

/-- Embeds `name.replace("_", repl)` at the character-list level (the replacement
pattern is the single character `_`, so `str.replace` is exactly this
pointwise substitution). -/
def replaceUnderscores (repl : List Char) : List Char → List Char
  | [] => []
  | c :: rest => (if c = '_' then repl else [c]) ++ replaceUnderscores repl rest

/-- The one-character lookahead `(?=\W)`: requires that a character exists
and is a non-word character. -/
def lookaheadOk : List Char → Bool
  | [] => false
  | d :: _ => !isWordChar d

/-- Try the alternatives in order at the current position: the first
non-empty variant that is a literal prefix of the rest of the text and whose
lookahead holds wins (Python alternation is leftmost-alternative first, and
on lookahead failure backtracks into the next alternative). -/
def findMatch (variants : List (List Char)) (l : List Char) : Option (List Char) :=
  variants.find? (fun v => !v.isEmpty && v.isPrefixOf l && lookaheadOk (l.drop v.length))

/-- The `re.findall` scan: left-to-right, non-overlapping.  `prev` is the
character before the current position (`none` at the start of the text,
where the lookbehind `(?<=\W)` fails for lack of a character).  `fuel`
bounds the recursion; every step consumes at least one character, so fuel
equal to the text length never runs out. -/
def scanCount (variants : List (List Char)) : Nat → Option Char → List Char → Nat
  | 0, _, _ => 0
  | _ + 1, _, [] => 0
  | fuel + 1, prev, c :: rest =>
    let boundary := match prev with
      | some p => !isWordChar p
      | none => false
    if boundary then
      match findMatch variants (c :: rest) with
      | some v => 1 + scanCount variants fuel (some (v.getLastD c)) ((c :: rest).drop v.length)
      | none => scanCount variants fuel (some c) rest
    else scanCount variants fuel (some c) rest

/-- Number of regex matches for one candidate `name` in
`f" {message_content} "` (the padding spaces are part of the scanned
text, as in the source). -/
def mentionCount (name : String) (message_content : String) : Nat :=
  let padded := (" " ++ message_content ++ " ").data
  let variants := [name.data,
                   replaceUnderscores [' '] name.data,
                   replaceUnderscores ['\\', '_'] name.data]
  scanCount variants padded.length none padded

/-- Embeds `SelectorGroupChatManager._mentioned_agents`: the mapping (in insertion
order of `agent_names`) from each name with a positive count to its count. -/
def mentioned_agents (message_content : String) (agent_names : List String) :
    List (String × Nat) :=
  agent_names.filterMap (fun name =>
    let count := mentionCount name message_content
    if 0 < count then some (name, count) else none)

/-! ### Transcript rendering (the history loop of `select_speaker`) -/

/-- One iteration of the history loop: `message` starts as `""` for a null
source and `f"{source.type}:"` otherwise; a `TextMessage`/`StopMessage`
appends `f" {msg.content}"`; a `MultiModalMessage` appends `f" {item}"` per
string item and `" [Image]"` per media item; any other variant raises
`ValueError` (`UnsupportedMessageType`). -/
def renderMessageLine (event : GroupChatPublishEvent) : Except SelectorError String :=
  let sourcePart := match event.source with
    | none => ""
    | some s => s ++ ":"
  match event.agent_message with
  | .textMessage content => .ok (sourcePart ++ " " ++ content)
  | .stopMessage content => .ok (sourcePart ++ " " ++ content)
  | .multiModalMessage items =>
      .ok (sourcePart ++ String.join (items.map (fun item =>
        match item with
        | .str s => " " ++ s
        | .media => " [Image]")))
  | .other => .error .unsupportedMessageType

/-- The history loop: collect one line per event, aborting at the first
unsupported variant. -/
def renderHistoryLines : List GroupChatPublishEvent → Except SelectorError (List String)
  | [] => .ok []
  | event :: rest =>
    match renderMessageLine event with
    | .error e => .error e
    | .ok line =>
      match renderHistoryLines rest with
      | .error e => .error e
      | .ok lines => .ok (line :: lines)

/-- Embeds `history = "\n".join(history_messages)`. -/
def renderHistory (thread : List GroupChatPublishEvent) : Except SelectorError String :=
  match renderHistoryLines thread with
  | .error e => .error e
  | .ok lines => .ok (String.intercalate "\n" lines)

/-! ### Roles, candidates, prompt -/

/-- Embeds `roles = "\n".join(f"{topic_type}: {description}".strip() for ...)`
(the `strict=True` length check is done by the caller). -/
def renderRoles (topic_types descriptions : List String) : String :=
  String.intercalate "\n"
    ((topic_types.zip descriptions).map (fun td => (td.1 ++ ": " ++ td.2).trim))

/-- The candidate filter: skip the previous speaker when one exists and
repeats are disallowed, otherwise the full list. -/
def candidates (participant_topic_types : List String)
    (previous_speaker : Option String) (allow_repeated_speaker : Bool) : List String :=
  match previous_speaker with
  | some p =>
      if !allow_repeated_speaker then
        participant_topic_types.filter (fun x => x != p)
      else participant_topic_types
  | none => participant_topic_types

/-- Python's `str` of a list of strings, used for the `{participants}`
substitution. -/
def pyStrList (l : List String) : String :=
  let q := (Char.ofNat 39).toString
  "[" ++ String.intercalate ", " (l.map (fun s => q ++ s ++ q)) ++ "]"

/-- Embeds `selector_prompt.format(roles=..., participants=..., history=...)`,
modelled for templates whose only replacement fields are the three
placeholders (which construction validates). -/
def formatSelectorPrompt (tmpl roles participants history : String) : String :=
  ((tmpl.replace "{roles}" roles).replace "{participants}" participants).replace
    "{history}" history

/-! ### The selection round -/

/-- The configuration fields of `SelectorGroupChatManager` that
`select_speaker` reads. -/
structure SelectorConfig where
  participant_topic_types : List String
  participant_descriptions : List String
  selector_prompt : String
  allow_repeated_speaker : Bool
  selector_func : Option (List ChatMessage → Option String)

/-- The override hook's decision for a thread: `selector_func` applied to
the domain messages, when the hook is present. -/
def overrideResult (cfg : SelectorConfig) (thread : List GroupChatPublishEvent) :
    Option String :=
  match cfg.selector_func with
  | some f => f (thread.map (fun e => e.agent_message))
  | none => none

/-- The model-based part of `select_speaker` (everything after the
`selector_func` early return).  `model` embeds
`self._model_client.create`: `.error` is a failure of the completion
capability, `.ok` its string answer.  Returns the round result together
with the post-round `_previous_speaker`. -/
def selectSpeakerModelPath (cfg : SelectorConfig) (model : String → Except Unit String)
    (previous_speaker : Option String) (thread : List GroupChatPublishEvent) :
    Except SelectorError String × Option String :=
  match renderHistory thread with
  | .error e => (.error e, previous_speaker)
  | .ok history =>
    if cfg.participant_topic_types.length ≠ cfg.participant_descriptions.length then
      (.error .roleZipMismatch, previous_speaker)
    else
      let roles := renderRoles cfg.participant_topic_types cfg.participant_descriptions
      let parts := candidates cfg.participant_topic_types previous_speaker
        cfg.allow_repeated_speaker
      match parts with
      | [] => (.error .emptyCandidateSet, previous_speaker)
      | [a] => (.ok a, some a)
      | _ :: _ :: _ =>
        let prompt := formatSelectorPrompt cfg.selector_prompt roles
          (pyStrList parts) history
        match model prompt with
        | .error _ => (.error .modelInvocationFailure, previous_speaker)
        | .ok content =>
          let mentions := mentioned_agents content cfg.participant_topic_types
          if mentions.length = 1 then
            match mentions with
            | (agent_name, _) :: _ => (.ok agent_name, some agent_name)
            | [] => (.error (.ambiguousSelection mentions), previous_speaker)
          else (.error (.ambiguousSelection mentions), previous_speaker)

/-- Embeds `SelectorGroupChatManager.select_speaker` as a pure function of the
configuration, the completion capability, the current `_previous_speaker`
and the thread.  The first component is the returned speaker or the raised
error; the second is `_previous_speaker` after the call (the override early
return leaves it untouched; the model path assigns it just before
returning). -/
def select_speaker (cfg : SelectorConfig) (model : String → Except Unit String)
    (previous_speaker : Option String) (thread : List GroupChatPublishEvent) :
    Except SelectorError String × Option String :=
  match cfg.selector_func with
  | some f =>
    match f (thread.map (fun e => e.agent_message)) with
    | some speaker => (.ok speaker, previous_speaker)
    | none => selectSpeakerModelPath cfg model previous_speaker thread
  | none => selectSpeakerModelPath cfg model previous_speaker thread

/-! ### Construction-time validation (`SelectorGroupChat.__init__`) -/

/-- Construction-time errors: fewer than two participants, or a template
missing one of the required placeholders. -/
inductive ConstructError where
  | insufficientParticipants
  | invalidTemplate
deriving DecidableEq

/-- Substring test on character lists (Python's `in` on strings). -/
def hasSubstringAux (pat : List Char) : List Char → Bool
  | [] => pat.isEmpty
  | c :: rest => pat.isPrefixOf (c :: rest) || hasSubstringAux pat rest

/-- Python's `pat in s` for strings. -/
def strContains (s pat : String) : Bool :=
  hasSubstringAux pat.data s.data

/-- The validation sequence of `SelectorGroupChat.__init__`: the
participant-count check runs first, then the three placeholder checks. -/
def validateConstruction (participants : List String) (selector_prompt : String) :
    Except ConstructError Unit :=
  if participants.length < 2 then .error .insufficientParticipants
  else if !strContains selector_prompt "{roles}" then .error .invalidTemplate
  else if !strContains selector_prompt "{participants}" then .error .invalidTemplate
  else if !strContains selector_prompt "{history}" then .error .invalidTemplate
  else .ok ()

end SelectorChat

namespace SelectorChat

/-! ### Helper lemmas -/

/-- Rewriting lemma: `select_speaker` factored through `overrideResult` (pure reassociation
of the two nested matches of the definition). -/
lemma select_speaker_eq (cfg : SelectorConfig)
    (model : String → Except Unit String) (prev : Option String)
    (thread : List GroupChatPublishEvent) :
    select_speaker cfg model prev thread =
      match overrideResult cfg thread with
      | some speaker => (.ok speaker, prev)
      | none => selectSpeakerModelPath cfg model prev thread := by
  unfold select_speaker overrideResult
  rcases cfg.selector_func with _ | f
  · rfl
  · rcases f (thread.map (fun e => e.agent_message)) with _ | sp <;> rfl

/-- When the override hook declines (or is absent), `select_speaker` is the
model-based path. -/
lemma select_speaker_override_none (cfg : SelectorConfig)
    (model : String → Except Unit String) (prev : Option String)
    (thread : List GroupChatPublishEvent)
    (h : overrideResult cfg thread = none) :
    select_speaker cfg model prev thread = selectSpeakerModelPath cfg model prev thread := by
  rw [select_speaker_eq, h]

/-- Every run of the model-based path either succeeds with some name and
sets `_previous_speaker` to that name, or fails leaving
`_previous_speaker` at its pre-round value. -/
lemma selectSpeakerModelPath_shape (cfg : SelectorConfig)
    (model : String → Except Unit String) (prev : Option String)
    (thread : List GroupChatPublishEvent) :
    (∃ a, selectSpeakerModelPath cfg model prev thread = (.ok a, some a)) ∨
    (∃ e, selectSpeakerModelPath cfg model prev thread = (.error e, prev)) := by
  unfold selectSpeakerModelPath
  split
  · exact Or.inr ⟨_, rfl⟩
  · split
    · exact Or.inr ⟨_, rfl⟩
    · dsimp only
      split
      · exact Or.inr ⟨_, rfl⟩
      · exact Or.inl ⟨_, rfl⟩
      · split
        · exact Or.inr ⟨_, rfl⟩
        · split
          · split
            · exact Or.inl ⟨_, rfl⟩
            · exact Or.inr ⟨_, rfl⟩
          · exact Or.inr ⟨_, rfl⟩

/-- The same shape statement for the full `select_speaker`: the override
early return additionally may succeed without touching the state. -/
lemma select_speaker_shape (cfg : SelectorConfig)
    (model : String → Except Unit String) (prev : Option String)
    (thread : List GroupChatPublishEvent) :
    (∃ a, select_speaker cfg model prev thread = (.ok a, some a)) ∨
    (∃ a, select_speaker cfg model prev thread = (.ok a, prev)) ∨
    (∃ e, select_speaker cfg model prev thread = (.error e, prev)) := by
  rw [select_speaker_eq]
  rcases overrideResult cfg thread with _ | speaker
  · rcases selectSpeakerModelPath_shape cfg model prev thread with ⟨a, ha⟩ | ⟨e, he⟩
    · exact Or.inl ⟨a, ha⟩
    · exact Or.inr (Or.inr ⟨e, he⟩)
  · exact Or.inr (Or.inl ⟨speaker, rfl⟩)

/-! ### C1 — override precedence -/

/-- C1: if the injected selector function is present and returns an id for
the round's message history, `select_speaker` returns exactly that id with
`_previous_speaker` untouched, for every completion capability (so the
model is never invoked), with no candidate filtering or mention parsing
constraining the returned id. -/
theorem select_speaker_override_precedence (cfg : SelectorConfig)
    (prev : Option String) (thread : List GroupChatPublishEvent)
    (f : List ChatMessage → Option String) (speaker : String)
    (hf : cfg.selector_func = some f)
    (hs : f (thread.map (fun e => e.agent_message)) = some speaker) :
    ∀ model : String → Except Unit String,
      select_speaker cfg model prev thread = (.ok speaker, prev) := by
  intro model
  have hov : overrideResult cfg thread = some speaker := by
    unfold overrideResult
    rw [hf]
    exact hs
  rw [select_speaker_eq, hov]

/-- Concrete configuration whose override hook always answers `Carol`. -/
def alwaysCarolCfg : SelectorConfig :=
  ⟨["Alice", "Bob", "Carol"], ["", "", ""],
   "{roles} {participants} {history}", false, some (fun _ => some "Carol")⟩

/-- Witness for C1 at a concrete input: the override decides `Carol` even
when the completion capability would fail. -/
theorem select_speaker_override_precedence_witness :
    alwaysCarolCfg.selector_func = some (fun _ => some "Carol") ∧
    select_speaker alwaysCarolCfg (fun _ => .error ()) none [] = (.ok "Carol", none) :=
  ⟨rfl, select_speaker_override_precedence alwaysCarolCfg none []
    (fun _ => some "Carol") "Carol" rfl rfl (fun _ => .error ())⟩

/-- Concrete configuration with three participants and no override hook. -/
def noFuncCfg : SelectorConfig :=
  ⟨["Alice", "Bob", "Carol"], ["", "", ""],
   "{roles} {participants} {history}", false, none⟩

/-! ### C2 — previous-speaker update (corrected) -/

/-- Concrete configuration whose override hook always answers `B`. -/
def overrideToBCfg : SelectorConfig :=
  ⟨["A", "B"], ["", ""], "{roles} {participants} {history}", false,
   some (fun _ => some "B")⟩

/-- Counterexample to C2 as stated: a round decided by the override hook
returns `B` but leaves `_previous_speaker` at its pre-round value `A`
instead of setting it to the chosen id. -/
theorem select_speaker_previous_update_cex :
    select_speaker overrideToBCfg (fun _ => .error ()) (some "A") [] =
      (.ok "B", some "A") ∧
    (some "A" : Option String) ≠ some "B" :=
  ⟨rfl, by decide⟩

/-- C2 amended: a round that reaches `Selected` through the model-based or
single-candidate path sets `_previous_speaker` to the chosen id before
returning; a round decided by the override hook returns the chosen id with
`_previous_speaker` unchanged. -/
theorem select_speaker_previous_update (cfg : SelectorConfig)
    (model : String → Except Unit String) (prev : Option String)
    (thread : List GroupChatPublishEvent) :
    (∀ s, overrideResult cfg thread = some s →
       select_speaker cfg model prev thread = (.ok s, prev)) ∧
    (overrideResult cfg thread = none →
       ∀ name, (select_speaker cfg model prev thread).1 = .ok name →
         (select_speaker cfg model prev thread).2 = some name) := by
  constructor
  · intro s hs
    rw [select_speaker_eq, hs]
  · intro hnone name hname
    rw [select_speaker_override_none cfg model prev thread hnone] at hname ⊢
    rcases selectSpeakerModelPath_shape cfg model prev thread with ⟨a, ha⟩ | ⟨e, he⟩
    · rw [ha] at hname ⊢
      cases hname
      rfl
    · rw [he] at hname
      cases hname

/-- Witness for C2 amended: an override round keeps the old state, and a
model round stores the selected speaker. -/
theorem select_speaker_previous_update_witness :
    overrideResult overrideToBCfg [] = some "B" ∧
    select_speaker overrideToBCfg (fun _ => .error ()) (some "A") [] = (.ok "B", some "A") ∧
    overrideResult noFuncCfg [] = none ∧
    (select_speaker noFuncCfg (fun _ => .ok "I choose Bob.") none []).1 = .ok "Bob" ∧
    (select_speaker noFuncCfg (fun _ => .ok "I choose Bob.") none []).2 = some "Bob" :=
  ⟨rfl,
   (select_speaker_previous_update overrideToBCfg (fun _ => .error ()) (some "A") []).1
     "B" rfl,
   rfl, rfl,
   (select_speaker_previous_update noFuncCfg (fun _ => .ok "I choose Bob.") none []).2
     rfl "Bob" rfl⟩

/-! ### C6 — failures never mutate the previous-speaker state -/

/-- C6: every failing round — unsupported message variant while rendering,
propagated model failure, ambiguous mention parsing (and the defensive
cases) — leaves `_previous_speaker` at its pre-round value; it is assigned
only by a successful round's final step. -/
theorem select_speaker_failure_preserves_state (cfg : SelectorConfig)
    (model : String → Except Unit String) (prev : Option String)
    (thread : List GroupChatPublishEvent) (e : SelectorError)
    (h : (select_speaker cfg model prev thread).1 = .error e) :
    (select_speaker cfg model prev thread).2 = prev := by
  rcases select_speaker_shape cfg model prev thread with ⟨a, ha⟩ | ⟨a, ha⟩ | ⟨e', he⟩
  · rw [ha] at h
    cases h
  · rw [ha]
  · rw [he]

/-- Witness for C6: a thread with an unsupported message variant fails and
leaves the previous speaker `A` in place. -/
theorem select_speaker_failure_preserves_state_witness :
    (select_speaker noFuncCfg (fun _ => .ok "x") (some "A")
       [⟨ChatMessage.other, none⟩]).1 = .error .unsupportedMessageType ∧
    (select_speaker noFuncCfg (fun _ => .ok "x") (some "A")
       [⟨ChatMessage.other, none⟩]).2 = some "A" :=
  ⟨rfl,
   select_speaker_failure_preserves_state noFuncCfg (fun _ => .ok "x") (some "A")
     [⟨ChatMessage.other, none⟩] .unsupportedMessageType rfl⟩

/-! ### C3 and C7 — the mention-parsing decision rule -/

/-- In the model-based branch (override declined, transcript rendered,
role lists aligned, more than one candidate), an answer whose mention map
does not have exactly one entry fails with `AmbiguousSelection`, leaving
the state unchanged. -/
lemma model_path_ambiguous (cfg : SelectorConfig) (prev : Option String)
    (thread : List GroupChatPublishEvent) (history content : String)
    (hover : overrideResult cfg thread = none)
    (hhist : renderHistory thread = .ok history)
    (hlen : cfg.participant_topic_types.length = cfg.participant_descriptions.length)
    (hcand : 1 < (candidates cfg.participant_topic_types prev
       cfg.allow_repeated_speaker).length)
    (hne : (mentioned_agents content cfg.participant_topic_types).length ≠ 1) :
    select_speaker cfg (fun _ => .ok content) prev thread =
      (.error (.ambiguousSelection
        (mentioned_agents content cfg.participant_topic_types)), prev) := by
  rw [select_speaker_override_none cfg _ prev thread hover]
  unfold selectSpeakerModelPath
  split
  · simp_all
  · split
    · omega
    · dsimp only
      split
      · next hc => rw [hc] at hcand; simp at hcand
      · next a hc => rw [hc] at hcand; simp at hcand
      · split
        · next h1 => exact absurd h1 hne
        · rfl

/-- In the same branch, an answer whose mention map is exactly one entry
succeeds with that entry's name (whatever its occurrence count), and stores
it as the new previous speaker. -/
lemma model_path_unique_mention (cfg : SelectorConfig) (prev : Option String)
    (thread : List GroupChatPublishEvent) (history content : String) (n : String) (k : Nat)
    (hover : overrideResult cfg thread = none)
    (hhist : renderHistory thread = .ok history)
    (hlen : cfg.participant_topic_types.length = cfg.participant_descriptions.length)
    (hcand : 1 < (candidates cfg.participant_topic_types prev
       cfg.allow_repeated_speaker).length)
    (hone : mentioned_agents content cfg.participant_topic_types = [(n, k)]) :
    select_speaker cfg (fun _ => .ok content) prev thread = (.ok n, some n) := by
  rw [select_speaker_override_none cfg _ prev thread hover]
  unfold selectSpeakerModelPath
  split
  · simp_all
  · split
    · omega
    · dsimp only
      split
      · next hc => rw [hc] at hcand; simp at hcand
      · next a hc => rw [hc] at hcand; simp at hcand
      · split
        · rw [hone]
        · next h1 => rw [hone] at h1; simp at h1

/-- C3: in the model-based path the mention matcher runs over the model's
answer against the full participant list, and the round raises
`AmbiguousSelection` exactly when the number of distinct participant names
with positive mention count differs from one; exactly one distinct name —
even with several occurrences — succeeds with that name. -/
theorem select_speaker_mention_decision (cfg : SelectorConfig) (prev : Option String)
    (thread : List GroupChatPublishEvent) (history content : String)
    (hover : overrideResult cfg thread = none)
    (hhist : renderHistory thread = .ok history)
    (hlen : cfg.participant_topic_types.length = cfg.participant_descriptions.length)
    (hcand : 1 < (candidates cfg.participant_topic_types prev
       cfg.allow_repeated_speaker).length) :
    ((mentioned_agents content cfg.participant_topic_types).length ≠ 1 →
       select_speaker cfg (fun _ => .ok content) prev thread =
         (.error (.ambiguousSelection
           (mentioned_agents content cfg.participant_topic_types)), prev)) ∧
    (∀ n k, mentioned_agents content cfg.participant_topic_types = [(n, k)] →
       select_speaker cfg (fun _ => .ok content) prev thread = (.ok n, some n)) :=
  ⟨fun hne => model_path_ambiguous cfg prev thread history content
      hover hhist hlen hcand hne,
   fun n k hone => model_path_unique_mention cfg prev thread history content n k
      hover hhist hlen hcand hone⟩

/-- Witness for C3: with participants `Alice, Bob, Carol` and the answer
`"I choose Bob."`, the single mention of `Bob` is selected; with the answer
`"Alice and Bob are here"` the two mentions raise `AmbiguousSelection`. -/
theorem select_speaker_mention_decision_witness :
    overrideResult noFuncCfg [] = none ∧
    renderHistory [] = .ok "" ∧
    mentioned_agents "I choose Bob." noFuncCfg.participant_topic_types = [("Bob", 1)] ∧
    select_speaker noFuncCfg (fun _ => .ok "I choose Bob.") none [] =
      (.ok "Bob", some "Bob") ∧
    select_speaker noFuncCfg (fun _ => .ok "Alice and Bob are here") none [] =
      (.error (.ambiguousSelection [("Alice", 1), ("Bob", 1)]), none) :=
  ⟨rfl, rfl, rfl,
   (select_speaker_mention_decision noFuncCfg none [] "" "I choose Bob."
      rfl rfl rfl (by decide)).2 "Bob" 1 rfl,
   (select_speaker_mention_decision noFuncCfg none [] "" "Alice and Bob are here"
      rfl rfl rfl (by decide)).1 (by decide)⟩

/-! ### C7 — repeated-speaker selection is a warning, not an error -/

/-- C7: when the model-based path yields exactly one mention and that
mention equals the previous speaker while repeats are disallowed, the
round still succeeds with that id and stores it; the condition is only
logged, never raised. -/
theorem select_speaker_repeat_permissive (cfg : SelectorConfig)
    (thread : List GroupChatPublishEvent) (history content p : String) (k : Nat)
    (hallow : cfg.allow_repeated_speaker = false)
    (hover : overrideResult cfg thread = none)
    (hhist : renderHistory thread = .ok history)
    (hlen : cfg.participant_topic_types.length = cfg.participant_descriptions.length)
    (hcand : 1 < (candidates cfg.participant_topic_types (some p)
       cfg.allow_repeated_speaker).length)
    (hone : mentioned_agents content cfg.participant_topic_types = [(p, k)]) :
    select_speaker cfg (fun _ => .ok content) (some p) thread = (.ok p, some p) :=
  model_path_unique_mention cfg (some p) thread history content p k
    hover hhist hlen hcand hone

/-- Witness for C7: previous speaker `Alice`, repeats disallowed, and the
answer mentions only `Alice`; the round succeeds with `Alice`. -/
theorem select_speaker_repeat_permissive_witness :
    noFuncCfg.allow_repeated_speaker = false ∧
    mentioned_agents "Alice again" noFuncCfg.participant_topic_types = [("Alice", 1)] ∧
    select_speaker noFuncCfg (fun _ => .ok "Alice again") (some "Alice") [] =
      (.ok "Alice", some "Alice") :=
  ⟨rfl, rfl,
   select_speaker_repeat_permissive noFuncCfg [] "" "Alice again" "Alice" 1
     rfl rfl rfl rfl (by decide) rfl⟩

/-! ### C4 — word-boundary mention counting -/

/-- C4: the matcher counts word-boundary-delimited occurrences of the three
spellings as alternatives of one pattern: the underscore name matches its
space spelling exactly once, a substring inside a longer word does not
match at all, and a name without underscores (all three spellings equal) is
still counted once per occurrence, never triple-counted. -/
theorem mention_matcher_boundary_examples :
    mentioned_agents "Ask Story writer to continue" ["Story_writer"] =
      [("Story_writer", 1)] ∧
    mentioned_agents "Alicertain thing" ["Alice"] = [] ∧
    mentioned_agents "Alice and Bob are here" ["Alice", "Bob"] =
      [("Alice", 1), ("Bob", 1)] :=
  ⟨rfl, rfl, rfl⟩

/-! ### C5 — candidate filter, non-emptiness, single-candidate shortcut -/

/-- Candidate filter output is never empty when the participant ids are
unique and number at least two. -/
lemma candidates_ne_nil (full : List String) (prev : Option String) (allow : Bool)
    (hnd : full.Nodup) (hlen : 2 ≤ full.length) :
    candidates full prev allow ≠ [] := by
  unfold candidates
  rcases prev with _ | p
  · cases full with
    | nil => simp at hlen
    | cons a l => simp
  · rcases full with _ | ⟨a, _ | ⟨b, l⟩⟩
    · simp at hlen
    · simp at hlen
    · cases allow
      · simp only [Bool.not_false, if_pos]
        have hab : a ≠ b := by
          intro h
          exact (List.nodup_cons.mp hnd).1 (h ▸ List.mem_cons_self b l)
        obtain ⟨x, hxmem, hxp⟩ : ∃ x ∈ a :: b :: l, x ≠ p := by
          by_cases hap : a = p
          · exact ⟨b, List.mem_cons_of_mem _ (List.mem_cons_self _ _),
              by rw [← hap]; exact Ne.symm hab⟩
          · exact ⟨a, List.mem_cons_self _ _, hap⟩
        intro hnil
        have hx : x ∈ List.filter (fun y => y != p) (a :: b :: l) :=
          List.mem_filter.mpr ⟨hxmem, by simp [hxp]⟩
        rw [hnil] at hx
        simp at hx
      · simp

/-- When exactly one candidate is eligible, the round returns it (for every
completion capability: the model is not invoked) and stores it. -/
lemma single_candidate_shortcut (cfg : SelectorConfig)
    (model : String → Except Unit String) (prev : Option String)
    (thread : List GroupChatPublishEvent) (history c0 : String)
    (hover : overrideResult cfg thread = none)
    (hhist : renderHistory thread = .ok history)
    (hlen : cfg.participant_topic_types.length = cfg.participant_descriptions.length)
    (hc : candidates cfg.participant_topic_types prev cfg.allow_repeated_speaker = [c0]) :
    select_speaker cfg model prev thread = (.ok c0, some c0) := by
  rw [select_speaker_override_none cfg model prev thread hover]
  unfold selectSpeakerModelPath
  split
  · simp_all
  · split
    · omega
    · dsimp only
      split <;> simp_all

/-- C5: the eligible set is the full list minus the previous speaker when
one exists and repeats are disallowed, the full list otherwise; with at
least two unique participant ids it is never empty (the defensive
empty-set failure is unreachable); and an eligible set of exactly one
member is selected without invoking the completion capability. -/
theorem candidate_filter_spec (full : List String) (prev : Option String) (allow : Bool)
    (hnd : full.Nodup) (hlen : 2 ≤ full.length)
    (hmem : ∀ p, prev = some p → p ∈ full) :
    (∀ p, prev = some p → allow = false →
       candidates full prev allow = full.filter (fun x => x != p)) ∧
    ((prev = none ∨ allow = true) → candidates full prev allow = full) ∧
    candidates full prev allow ≠ [] ∧
    (∀ (cfg : SelectorConfig) (model : String → Except Unit String)
       (thread : List GroupChatPublishEvent) (history : String) (c0 : String),
       cfg.participant_topic_types = full →
       cfg.allow_repeated_speaker = allow →
       cfg.participant_descriptions.length = full.length →
       overrideResult cfg thread = none →
       renderHistory thread = .ok history →
       candidates full prev allow = [c0] →
       select_speaker cfg model prev thread = (.ok c0, some c0)) := by
  refine ⟨?_, ?_, candidates_ne_nil full prev allow hnd hlen, ?_⟩
  · intro p hp hab
    subst hp hab
    simp [candidates]
  · intro h
    rcases h with h | h
    · subst h
      rfl
    · subst h
      unfold candidates
      rcases prev with _ | p <;> simp
  · intro cfg model thread history c0 h1 h2 h3 h4 h5 h6
    exact single_candidate_shortcut cfg model prev thread history c0 h4 h5
      (by rw [h1, h3]) (by rw [h1, h2]; exact h6)

/-- Concrete two-participant configuration without an override hook. -/
def pairCfg : SelectorConfig :=
  ⟨["A", "B"], ["", ""], "{roles} {participants} {history}", false, none⟩

/-- Witness for C5: participants `A, B`, previous speaker `A`, repeats
disallowed — the eligible set is exactly `B`, and the round selects `B`
even under a failing completion capability. -/
theorem candidate_filter_spec_witness :
    candidates ["A", "B"] (some "A") false = ["B"] ∧
    candidates ["A", "B"] (some "A") false ≠ [] ∧
    select_speaker pairCfg (fun _ => .error ()) (some "A") [] = (.ok "B", some "B") :=
  ⟨rfl,
   (candidate_filter_spec ["A", "B"] (some "A") false (by decide) (by decide)
      (by intro p hp; cases hp; decide)).2.2.1,
   (candidate_filter_spec ["A", "B"] (some "A") false (by decide) (by decide)
      (by intro p hp; cases hp; decide)).2.2.2 pairCfg (fun _ => .error ()) [] "" "B"
      rfl rfl rfl rfl rfl rfl⟩

/-! ### C8 — transcript renderer format (corrected) -/

/-- Counterexample to C8 as stated: a null-source `Text "hi"` line renders
as `" hi"` — the body carries a leading space — not as the content
verbatim. -/
theorem transcript_renderer_cex :
    renderHistory [⟨ChatMessage.textMessage "hi", none⟩] = .ok " hi" ∧
    (" hi" : String) ≠ "hi" :=
  ⟨rfl, by decide⟩

/-- Modelled from the spec as amended: the body of a rendered line.  A
`Text`/`Stop` body is a single space followed by the content; a
`MultiModal` body is the concatenation, per item, of a space followed by
the item (string verbatim, `"[Image]"` for media).  The `other` case is
never rendered. -/
def specLineBody : ChatMessage → String
  | .textMessage content => " " ++ content
  | .stopMessage content => " " ++ content
  | .multiModalMessage items => String.join (items.map (fun item =>
      match item with
      | .str s => " " ++ s
      | .media => " [Image]"))
  | .other => ""

/-- Modelled from the spec as amended: a rendered line is the body prefixed
with `"<source>:"` for a non-null source, and the body alone (with its
leading space) for a null source. -/
def specLine (e : GroupChatPublishEvent) : String :=
  (match e.source with
   | none => ""
   | some s => s ++ ":") ++ specLineBody e.agent_message

lemma strAppend_assoc (a b c : String) : a ++ b ++ c = a ++ (b ++ c) := by
  apply String.ext
  simp

/-- A supported event renders to its spec line. -/
lemma renderMessageLine_ok (e : GroupChatPublishEvent)
    (h : e.agent_message ≠ ChatMessage.other) :
    renderMessageLine e = .ok (specLine e) := by
  unfold renderMessageLine specLine specLineBody
  rcases e with ⟨msg, src⟩
  dsimp only
  cases msg with
  | textMessage c => exact congrArg Except.ok (strAppend_assoc _ _ _)
  | stopMessage c => exact congrArg Except.ok (strAppend_assoc _ _ _)
  | multiModalMessage items => rfl
  | other => exact absurd rfl h

/-- An unsupported event is the renderer's only failure. -/
lemma renderMessageLine_err (e : GroupChatPublishEvent)
    (h : e.agent_message = ChatMessage.other) :
    renderMessageLine e = .error .unsupportedMessageType := by
  unfold renderMessageLine
  rw [h]

lemma renderHistoryLines_ok (thread : List GroupChatPublishEvent)
    (h : ∀ e ∈ thread, e.agent_message ≠ ChatMessage.other) :
    renderHistoryLines thread = .ok (thread.map specLine) := by
  induction thread with
  | nil => rfl
  | cons e rest ih =>
    unfold renderHistoryLines
    rw [renderMessageLine_ok e (h e (List.mem_cons_self e rest)),
      ih (fun x hx => h x (List.mem_cons_of_mem e hx))]
    rfl

lemma renderHistoryLines_err (thread : List GroupChatPublishEvent)
    (h : ∃ e ∈ thread, e.agent_message = ChatMessage.other) :
    renderHistoryLines thread = .error .unsupportedMessageType := by
  induction thread with
  | nil => simp at h
  | cons e rest ih =>
    unfold renderHistoryLines
    by_cases he : e.agent_message = ChatMessage.other
    · rw [renderMessageLine_err e he]
    · have hrest : ∃ x ∈ rest, x.agent_message = ChatMessage.other := by
        rcases h with ⟨x, hx, hxo⟩
        rcases List.mem_cons.mp hx with rfl | hx'
        · exact absurd hxo he
        · exact ⟨x, hx', hxo⟩
      rcases hline : renderMessageLine e with err | line
      · rcases err with _ | _ | _ | m | _
        · rfl
        all_goals
          exfalso
          unfold renderMessageLine at hline
          rcases e with ⟨msg, src⟩
          cases msg <;> simp_all
      · rw [ih hrest]

/-- C8 amended: the renderer produces one newline-joined line per event —
the body (a space-led rendering of the content: `Text`/`Stop` content
after one space, `MultiModal` items each preceded by one space, media
items as `"[Image]"`) prefixed with `"<source>:"` when the source is
non-null and standing alone otherwise — and any `other` variant in the
thread makes the round fail with `UnsupportedMessageType`. -/
theorem transcript_renderer_format (thread : List GroupChatPublishEvent) :
    ((∀ e ∈ thread, e.agent_message ≠ ChatMessage.other) →
       renderHistory thread = .ok (String.intercalate "\n" (thread.map specLine))) ∧
    ((∃ e ∈ thread, e.agent_message = ChatMessage.other) →
       renderHistory thread = .error .unsupportedMessageType) := by
  constructor
  · intro h
    unfold renderHistory
    rw [renderHistoryLines_ok thread h]
  · intro h
    unfold renderHistory
    rw [renderHistoryLines_err thread h]

/-- Witness for C8 amended: a two-event thread (null-source text, sourced
multimodal with a string and a media item) renders to the expected joined
lines. -/
theorem transcript_renderer_format_witness :
    (∀ e ∈ [(⟨ChatMessage.textMessage "hi", none⟩ : GroupChatPublishEvent),
            ⟨ChatMessage.multiModalMessage [.str "a", .media], some "S"⟩],
       e.agent_message ≠ ChatMessage.other) ∧
    renderHistory [⟨ChatMessage.textMessage "hi", none⟩,
       ⟨ChatMessage.multiModalMessage [.str "a", .media], some "S"⟩] =
      .ok " hi\nS: a [Image]" :=
  ⟨by decide,
   by
     rw [(transcript_renderer_format _).1 (by decide)]
     rfl⟩

/-! ### C9 — construction-time validation (corrected) -/

/-- Counterexample to C9 as stated: with a single participant and a
template missing every placeholder, construction fails with
`InsufficientParticipants`, not `InvalidTemplate` — the participant-count
check runs first, so "fails with InvalidTemplate if the template lacks a
placeholder" does not hold unconditionally. -/
theorem construction_validation_cex :
    strContains "" "{roles}" = false ∧
    validateConstruction ["A"] "" = .error .insufficientParticipants ∧
    ConstructError.insufficientParticipants ≠ ConstructError.invalidTemplate :=
  ⟨rfl, rfl, by decide⟩

/-- C9 amended: construction fails with `InsufficientParticipants` whenever
fewer than two participants are supplied (this check precedes template
validation); with at least two participants it fails with
`InvalidTemplate` exactly when the template lacks one of the literal
substrings; and a valid template with at least two participants raises
neither error. -/
theorem construction_validation (participants : List String) (tmpl : String) :
    (participants.length < 2 →
       validateConstruction participants tmpl = .error .insufficientParticipants) ∧
    (2 ≤ participants.length →
       (strContains tmpl "{roles}" = false ∨ strContains tmpl "{participants}" = false ∨
        strContains tmpl "{history}" = false) →
       validateConstruction participants tmpl = .error .invalidTemplate) ∧
    (2 ≤ participants.length → strContains tmpl "{roles}" = true →
       strContains tmpl "{participants}" = true → strContains tmpl "{history}" = true →
       validateConstruction participants tmpl = .ok ()) := by
  refine ⟨?_, ?_, ?_⟩
  · intro h
    unfold validateConstruction
    rw [if_pos h]
  · intro hge hmiss
    unfold validateConstruction
    rw [if_neg (by omega)]
    rcases hr : strContains tmpl "{roles}" with _ | _
    · rfl
    · rcases hp : strContains tmpl "{participants}" with _ | _
      · rfl
      · rcases hh : strContains tmpl "{history}" with _ | _
        · rfl
        · rcases hmiss with h | h | h <;> simp_all
  · intro hge hr hp hh
    unfold validateConstruction
    rw [if_neg (by omega), hr, hp, hh]
    rfl

/-- Witness for C9 amended: two participants with a template missing
`{history}` raise `InvalidTemplate`; the full template passes. -/
theorem construction_validation_witness :
    2 ≤ (["A", "B"] : List String).length ∧
    strContains "{roles} {participants}" "{history}" = false ∧
    validateConstruction ["A", "B"] "{roles} {participants}" =
      .error .invalidTemplate ∧
    validateConstruction ["A", "B"] "{roles} {participants} {history}" = .ok () :=
  ⟨by decide, rfl,
   (construction_validation ["A", "B"] "{roles} {participants}").2.1 (by decide)
     (Or.inr (Or.inr rfl)),
   (construction_validation ["A", "B"] "{roles} {participants} {history}").2.2
     (by decide) rfl rfl rfl⟩

/-! ### C10 — per-candidate independence and overlap ambiguity -/

/-- Configuration whose participant names overlap under the
underscore-to-space spelling. -/
def storyPairCfg : SelectorConfig :=
  ⟨["Story", "Story_writer"], ["", ""], "{roles} {participants} {history}",
   false, none⟩

/-- C10: each candidate's count depends only on that candidate and the
answer text, so one span can count for two names with overlapping
spellings: `"Story writer"` mentions both `Story` (verbatim) and
`Story_writer` (space spelling), and under the exactly-one-entry rule such
an answer fails with `AmbiguousSelection`. -/
theorem mention_matcher_independence (text : String) (names : List String) :
    (∀ n c, (n, c) ∈ mentioned_agents text names → c = mentionCount n text) ∧
    mentioned_agents "Story writer" ["Story", "Story_writer"] =
      [("Story", 1), ("Story_writer", 1)] ∧
    select_speaker storyPairCfg (fun _ => .ok "Story writer") none [] =
      (.error (.ambiguousSelection [("Story", 1), ("Story_writer", 1)]), none) := by
  refine ⟨?_, rfl, rfl⟩
  intro n c hmem
  unfold mentioned_agents at hmem
  rw [List.mem_filterMap] at hmem
  obtain ⟨name, _, hf⟩ := hmem
  dsimp only at hf
  split at hf
  · cases hf
    rfl
  · cases hf

/-- Witness for C10: the `Story` entry produced for the overlapping answer
carries exactly the count the matcher computes for `Story` alone. -/
theorem mention_matcher_independence_witness :
    ("Story", 1) ∈ mentioned_agents "Story writer" ["Story", "Story_writer"] ∧
    1 = mentionCount "Story" "Story writer" :=
  ⟨by decide,
   (mention_matcher_independence "Story writer" ["Story", "Story_writer"]).1
     "Story" 1 (by decide)⟩

end SelectorChat
